import Mathlib

/-!
Verification of the resilient scraping engine in `exo6.py`
(`ResilientScraper`).  The Python class is shallowly embedded: the
mutable object state (`self.stats`, `self.delay`, `self.scraped_books`)
becomes an explicit `ScraperState` record threaded through the
operations; the network is an oracle `env : Nat -> AttemptResult`
giving the outcome of the attempt with a given retry counter; sleeps
are recorded in an event trace; floats are modelled as exact rationals
(the Python literals 0.9, 1.5, 0.5, 10.0 are exactly representable in
the model and the claims are algebraic).
-/

namespace Exo6

/-- Counters of `self.stats` in `ResilientScraper.__init__` (the
`start_time` string is not modelled; no claim mentions it). -/
structure Stats where
  total_requests : Nat
  successful_requests : Nat
  failed_requests : Nat
  retries : Nat
  blocked_detections : Nat
  books_scraped : Nat
deriving DecidableEq

/-- A scraped book record, as built in `scrape_book` (`book_data`).
The `scraped_at` timestamp is threaded in by the caller (the Python
code reads the wall clock). -/
structure Book where
  url : String
  title : String
  price : String
  availability : String
  rating : String
  scraped_at : String
deriving DecidableEq

/-- The mutable state of a `ResilientScraper` instance. -/
structure ScraperState where
  stats : Stats
  delay : ℚ
  scraped_books : List Book
deriving DecidableEq

/-- `self.min_delay = 0.5`. -/
def min_delay : ℚ := 0.5

/-- `self.max_delay = 10.0`. -/
def max_delay : ℚ := 10.0

/-- `self.max_retries = 5`. -/
def max_retries : Nat := 5

/-- Initial stats dictionary from `__init__` (all counters zero). -/
def init_stats : Stats :=
  { total_requests := 0, successful_requests := 0, failed_requests := 0,
    retries := 0, blocked_detections := 0, books_scraped := 0 }

/-- Freshly constructed scraper state: `self.delay = 1.0`, empty
`scraped_books` (the case where no checkpoint file exists). -/
def init_state : ScraperState :=
  { stats := init_stats, delay := 1.0, scraped_books := [] }

/-- `self.stats['total_requests'] += 1`. -/
def incTotal (s : ScraperState) : ScraperState :=
  { s with stats := { s.stats with total_requests := s.stats.total_requests + 1 } }

/-- `self.stats['successful_requests'] += 1`. -/
def incSuccess (s : ScraperState) : ScraperState :=
  { s with stats := { s.stats with successful_requests := s.stats.successful_requests + 1 } }

/-- `self.stats['failed_requests'] += 1`. -/
def incFailed (s : ScraperState) : ScraperState :=
  { s with stats := { s.stats with failed_requests := s.stats.failed_requests + 1 } }

/-- `self.stats['retries'] += 1`. -/
def incRetries (s : ScraperState) : ScraperState :=
  { s with stats := { s.stats with retries := s.stats.retries + 1 } }

/-- `self.stats['blocked_detections'] += 1`. -/
def incBlocked (s : ScraperState) : ScraperState :=
  { s with stats := { s.stats with blocked_detections := s.stats.blocked_detections + 1 } }

/-- `'captcha' in response.text.lower()` — case-insensitive substring
test for the captcha marker. -/
def containsCaptcha (body : String) : Bool :=
  decide ("captcha".data <:+: body.data.map Char.toLower)

/-- `ResilientScraper.detect_blocking` (exo6.py lines 87-98): returns
the classification and the updated state (`blocked_detections` is
incremented on each positive classification). -/
def detect_blocking (s : ScraperState) (status : Nat) (body : String) :
    Bool × ScraperState :=
  if status = 403 ∨ status = 429 then
    (true, incBlocked s)
  else if containsCaptcha body then
    (true, incBlocked s)
  else
    (false, s)

/-- `ResilientScraper.adaptive_delay` (exo6.py lines 79-84). -/
def adaptive_delay (s : ScraperState) (success : Bool) : ScraperState :=
  if success then
    { s with delay := max min_delay (s.delay * 0.9) }
  else
    { s with delay := min max_delay (s.delay * 1.5) }

/-- Outcome of one HTTP attempt, as seen by `make_request`: a response
with a status code and body text, a `requests.exceptions.Timeout`, or
another `requests.exceptions.RequestException`. -/
inductive AttemptResult where
  | response (status : Nat) (body : String)
  | timeout
  | netError
deriving DecidableEq

/-- Observable sleep events of `make_request`, in program order:
the `time.sleep(self.delay)` before each attempt, the exponential
backoff `time.sleep(self.delay * 2 ** retries)` on a blocked response,
and the linear backoff `time.sleep(self.delay * (retries + 1))` in the
`RequestException` handler. -/
inductive Event where
  | sleepDelay (d : ℚ)
  | sleepBackoff (d : ℚ)
  | sleepLinear (d : ℚ)
deriving DecidableEq

/-- Result of a logical fetch: the returned value (`some body` for a
response, `none` for the `return None` paths), the final scraper
state, the trace of sleeps, and the number of request attempts made
(one per `make_request` activation, matching the `total_requests`
increments). -/
structure ReqResult where
  result : Option String
  state : ScraperState
  trace : List Event
  attemptsMade : Nat
deriving DecidableEq

/-- `ResilientScraper.make_request` (exo6.py lines 101-147), with the
retry cap `k` (in the source the fixed field `self.max_retries = 5`)
as a parameter.  `env retries` is the outcome of the attempt performed
with that retry counter.  A non-blocked response with a 4xx/5xx status
makes `response.raise_for_status()` raise `requests.exceptions.HTTPError`,
a subclass of `RequestException`, so it is handled by the
`except RequestException` branch. -/
def make_request (k : Nat) (env : Nat → AttemptResult)
    (s : ScraperState) (retries : Nat) : ReqResult :=
  let s1 := incTotal s
  match env retries with
  | .response status body =>
    let p := detect_blocking s1 status body
    if p.1 then
      if h : retries < k then
        let wait := p.2.delay * 2 ^ retries
        let r := make_request k env (incRetries p.2) (retries + 1)
        { r with trace := .sleepDelay s1.delay :: .sleepBackoff wait :: r.trace,
                 attemptsMade := r.attemptsMade + 1 }
      else
        { result := none, state := incFailed p.2,
          trace := [.sleepDelay s1.delay], attemptsMade := 1 }
    else
      if 400 ≤ status ∧ status < 600 then
        if h : retries < k then
          let r := make_request k env (incRetries p.2) (retries + 1)
          { r with trace := .sleepDelay s1.delay ::
                     .sleepLinear (p.2.delay * ((retries : ℚ) + 1)) :: r.trace,
                   attemptsMade := r.attemptsMade + 1 }
        else
          { result := none, state := adaptive_delay (incFailed p.2) false,
            trace := [.sleepDelay s1.delay], attemptsMade := 1 }
      else
        { result := some body, state := adaptive_delay (incSuccess p.2) true,
          trace := [.sleepDelay s1.delay], attemptsMade := 1 }
  | .timeout =>
    if h : retries < k then
      let r := make_request k env (incRetries s1) (retries + 1)
      { r with trace := .sleepDelay s1.delay :: r.trace,
               attemptsMade := r.attemptsMade + 1 }
    else
      { result := none, state := adaptive_delay (incFailed s1) false,
        trace := [.sleepDelay s1.delay], attemptsMade := 1 }
  | .netError =>
    if h : retries < k then
      let r := make_request k env (incRetries s1) (retries + 1)
      { r with trace := .sleepDelay s1.delay ::
                 .sleepLinear (s1.delay * ((retries : ℚ) + 1)) :: r.trace,
               attemptsMade := r.attemptsMade + 1 }
    else
      { result := none, state := adaptive_delay (incFailed s1) false,
        trace := [.sleepDelay s1.delay], attemptsMade := 1 }
termination_by k - retries
decreasing_by all_goals omega

/-- State after a run of `n` consecutive successful outcomes fed to
`adaptive_delay`. -/
def afterSuccesses (s : ScraperState) : Nat → ScraperState
  | 0 => s
  | n + 1 => adaptive_delay (afterSuccesses s n) true

/-- State after a run of `n` consecutive failure outcomes fed to
`adaptive_delay`. -/
def afterFailures (s : ScraperState) : Nat → ScraperState
  | 0 => s
  | n + 1 => adaptive_delay (afterFailures s n) false

/-- Oracle for a fetch whose every attempt is answered HTTP 429. -/
def env429c : Nat → AttemptResult := fun _ => .response 429 "x"

/-- Number of backoff sleeps (exponential or linear) in a trace. -/
def countBackoffSleeps : List Event → Nat
  | [] => 0
  | .sleepBackoff _ :: rest => countBackoffSleeps rest + 1
  | .sleepLinear _ :: rest => countBackoffSleeps rest + 1
  | .sleepDelay _ :: rest => countBackoffSleeps rest

/-- The delays slept before each attempt (the `time.sleep(self.delay)`
at the top of each `make_request` activation), in attempt order. -/
def preSleeps : List Event → List ℚ
  | [] => []
  | .sleepDelay d :: rest => d :: preSleeps rest
  | .sleepBackoff _ :: rest => preSleeps rest
  | .sleepLinear _ :: rest => preSleeps rest

/-- Oracle for a fetch whose first attempt times out and whose second
attempt is answered HTTP 200. -/
def envT : Nat → AttemptResult := fun n =>
  if n = 0 then .timeout else .response 200 "ok"

/-- Oracle for a fetch whose every attempt fails with a non-timeout
network error. -/
def envNc : Nat → AttemptResult := fun _ => .netError

/-- Oracle for a fetch whose every attempt is answered HTTP 404
(an error status that is not classified as blocked). -/
def env404c : Nat → AttemptResult := fun _ => .response 404 "x"

/-- Oracle for a fetch whose single attempt is answered HTTP 200. -/
def env200c : Nat → AttemptResult := fun _ => .response 200 "ok"

/-- Oracle for a fetch whose first attempt is answered HTTP 429 and
whose second attempt is answered HTTP 200. -/
def env9 : Nat → AttemptResult := fun n =>
  if n = 0 then .response 429 "" else .response 200 "page"

/-- Fields extracted from a book page by the BeautifulSoup lookups in
`scrape_book` (with the `'N/A'` defaults already applied). -/
structure BookFields where
  title : String
  price : String
  availability : String
  rating : String
deriving DecidableEq

/-- `ResilientScraper.scrape_book` (exo6.py lines 150-184).  `parse`
models the BeautifulSoup field extraction from the page content
(`none` models an exception caught by the `except` clause), and `now`
the `datetime.now().isoformat()` timestamp. -/
def scrape_book (env : Nat → AttemptResult) (parse : String → Option BookFields)
    (now : String) (s : ScraperState) (book_url : String) :
    Option Book × ScraperState :=
  if s.scraped_books.any (fun b => b.url == book_url) then
    (none, s)
  else
    let r := make_request max_retries env s 0
    match r.result with
    | none => (none, r.state)
    | some content =>
      match parse content with
      | none => (none, r.state)
      | some f =>
        let book_data : Book :=
          { url := book_url, title := f.title, price := f.price,
            availability := f.availability, rating := f.rating, scraped_at := now }
        (some book_data,
          { r.state with
              scraped_books := r.state.scraped_books ++ [book_data],
              stats := { r.state.stats with
                books_scraped := r.state.stats.books_scraped + 1 } })

/-- A parse oracle that always fails. -/
def parse0 : String → Option BookFields := fun _ => none

/-- A book record used by concrete dedup scenarios. -/
def b0 : Book :=
  { url := "u", title := "t", price := "p", availability := "a",
    rating := "r", scraped_at := "d" }

/-- A scraper state that already holds `b0` (for the resumed-run
scenario: the key "u" was loaded from a checkpoint). -/
def s_one : ScraperState :=
  { stats := init_stats, delay := 1.0, scraped_books := [b0] }

/-- Payload of the checkpoint file written by `save_checkpoint`
(the `last_save` wall-clock field is not modelled). -/
structure CheckpointData where
  books : List Book
  stats : Stats
deriving DecidableEq

/-- The `checkpoint_data` dictionary built in `save_checkpoint`. -/
def checkpoint_payload (s : ScraperState) : CheckpointData :=
  { books := s.scraped_books, stats := s.stats }

/-- `ResilientScraper.save_checkpoint` (exo6.py lines 65-76).  `write`
models the fallible `open`/`json.dump` I/O; an exception from it is
caught by the `except` clause (which only logs), so the method always
returns normally with the in-memory state untouched. -/
def save_checkpoint (write : CheckpointData → Except String Unit)
    (s : ScraperState) : Except String ScraperState :=
  match write (checkpoint_payload s) with
  | .ok _ => .ok s
  | .error _ => .ok s

/-- Observable effect of one `scrape_book` call inside the catalogue
loop: a new record appended (`books_scraped += 1`), no change
(duplicate key, failed fetch or parse error), or an exception escaping
mid-call (`KeyboardInterrupt` from a sleep, or an unexpected error
such as the pagination-link extraction). -/
inductive BookOutcome where
  | scraped
  | skipped
  | interrupted
  | errored
deriving DecidableEq

/-- An exception escaping the loop body: `KeyboardInterrupt` or any
other unexpected exception. -/
inductive RaiseKind where
  | interrupted
  | errored
deriving DecidableEq

/-- One iteration's page, as seen by `scrape_catalogue`: the page
fetch fails (`make_request` returned `None`), the page yields a list
of per-book outcomes (an empty list ends the catalogue), or an
exception escapes during the page fetch itself. -/
inductive PageSpec where
  | fetchFail
  | page (books : List BookOutcome)
  | interruptedFetch
  | erroredFetch
deriving DecidableEq

/-- How `scrape_catalogue` terminates: normal completion (break),
re-raised `KeyboardInterrupt`, or a re-raised fatal error. -/
inductive ExitKind where
  | normal
  | interrupted
  | errored
deriving DecidableEq

/-- Observable progress/persistence events of the crawl: a book
scraped (with the `books_scraped` count right after it) and a
checkpoint save (with the count it persisted). -/
inductive CrawlEvent where
  | scrapedBook (countAfter : Nat)
  | save (countAt : Nat)
deriving DecidableEq

/-- Crawl-level state for the checkpoint-policy analysis:
`books_scraped` is `self.stats['books_scraped']`; `lastSaved` is the
ghost count of books that the most recent `save_checkpoint` made
durable. -/
structure OrchState where
  books_scraped : Nat
  lastSaved : Nat
deriving DecidableEq

/-- Items of progress that would be lost if the process crashed now. -/
def gap (s : OrchState) : Nat := s.books_scraped - s.lastSaved

/-- Effect of `self.save_checkpoint()`: the current count becomes
durable. -/
def doSave (s : OrchState) : OrchState × CrawlEvent :=
  (⟨s.books_scraped, s.books_scraped⟩, .save s.books_scraped)

/-- Result of processing one book inside the page loop. -/
structure StepRes where
  state : OrchState
  events : List CrawlEvent
  raised : Option RaiseKind
deriving DecidableEq

/-- Result of processing the books of one page. -/
structure PassRes where
  state : OrchState
  events : List CrawlEvent
  maxGap : Nat
  raised : Option RaiseKind
deriving DecidableEq

/-- Result of the page loop (before exception handlers). -/
structure LoopRes where
  state : OrchState
  events : List CrawlEvent
  maxGap : Nat
  exitKind : ExitKind
deriving DecidableEq

/-- Result of a whole `scrape_catalogue` run. -/
structure CrawlResult where
  state : OrchState
  trace : List CrawlEvent
  maxGap : Nat
  exitKind : ExitKind
deriving DecidableEq

/-- One iteration of the inner `for book in books` loop of
`scrape_catalogue` (exo6.py lines 212-219): `self.scrape_book(...)`
followed by `if self.stats['books_scraped'] % 10 == 0:
self.save_checkpoint()` (the check runs after every call, successful
or not). -/
def bookStep (s : OrchState) (b : BookOutcome) : StepRes :=
  match b with
  | .interrupted => ⟨s, [], some .interrupted⟩
  | .errored => ⟨s, [], some .errored⟩
  | .skipped =>
    if s.books_scraped % 10 = 0 then
      ⟨(doSave s).1, [(doSave s).2], none⟩
    else
      ⟨s, [], none⟩
  | .scraped =>
    let s1 : OrchState := ⟨s.books_scraped + 1, s.lastSaved⟩
    if s1.books_scraped % 10 = 0 then
      ⟨(doSave s1).1, [.scrapedBook s1.books_scraped, (doSave s1).2], none⟩
    else
      ⟨s1, [.scrapedBook s1.books_scraped], none⟩

/-- The inner book loop over one page's books, stopping at the first
escaping exception.  `maxGap` records the largest `gap` observed at
the loop boundaries (the candidate progress loss of a crash). -/
def processBooks (s : OrchState) : List BookOutcome → PassRes
  | [] => ⟨s, [], gap s, none⟩
  | b :: rest =>
    let r1 := bookStep s b
    match r1.raised with
    | some e => ⟨r1.state, r1.events, max (gap s) (gap r1.state), some e⟩
    | none =>
      let r2 := processBooks r1.state rest
      ⟨r2.state, r1.events ++ r2.events, max (gap s) r2.maxGap, r2.raised⟩

/-- The `while True` pagination loop of `scrape_catalogue` (exo6.py
lines 192-221): stop on a failed page fetch or an empty page
(`break`), process the books otherwise, propagate escaping
exceptions. -/
def crawlPages (s : OrchState) : List PageSpec → LoopRes
  | [] => ⟨s, [], gap s, .normal⟩
  | .fetchFail :: _ => ⟨s, [], gap s, .normal⟩
  | .interruptedFetch :: _ => ⟨s, [], gap s, .interrupted⟩
  | .erroredFetch :: _ => ⟨s, [], gap s, .errored⟩
  | .page [] :: _ => ⟨s, [], gap s, .normal⟩
  | .page (b :: bs) :: rest =>
    let r1 := processBooks s (b :: bs)
    match r1.raised with
    | some .interrupted => ⟨r1.state, r1.events, r1.maxGap, .interrupted⟩
    | some .errored => ⟨r1.state, r1.events, r1.maxGap, .errored⟩
    | none =>
      let r2 := crawlPages r1.state rest
      ⟨r2.state, r1.events ++ r2.events, max r1.maxGap r2.maxGap, r2.exitKind⟩

/-- `ResilientScraper.scrape_catalogue` (exo6.py lines 187-234): the
pagination loop wrapped in the exception handlers — on
`KeyboardInterrupt` save and re-raise, on any other exception save and
re-raise, and in all cases the `finally` block saves once more. -/
def scrape_catalogue (pages : List PageSpec) (s : OrchState) : CrawlResult :=
  let r := crawlPages s pages
  match r.exitKind with
  | .normal =>
    let p := doSave r.state
    ⟨p.1, r.events ++ [p.2], max r.maxGap (gap p.1), .normal⟩
  | .interrupted =>
    let p1 := doSave r.state
    let p2 := doSave p1.1
    ⟨p2.1, r.events ++ [p1.2, p2.2], max r.maxGap (gap p2.1), .interrupted⟩
  | .errored =>
    let p1 := doSave r.state
    let p2 := doSave p1.1
    ⟨p2.1, r.events ++ [p1.2, p2.2], max r.maxGap (gap p2.1), .errored⟩

/-- Checkpoint-policy invariant: everything up to `lastSaved` is
durable, and the count has not yet reached the next multiple of 10
after `lastSaved` (at which the policy forces a save). -/
def Inv (s : OrchState) : Prop :=
  s.lastSaved ≤ s.books_scraped ∧
  s.books_scraped < s.lastSaved + (10 - s.lastSaved % 10)

/-- Every `scrapedBook c` event with `c` a multiple of 10 is
immediately followed by a `save c` event. -/
def multiplesSaved : List CrawlEvent → Bool
  | [] => true
  | .scrapedBook c :: rest =>
    (if c % 10 = 0 then
      match rest with
      | .save c' :: _ => c' == c
      | _ => false
    else true) && multiplesSaved rest
  | .save _ :: rest => multiplesSaved rest

/-- A concrete page list: one full page of 12 new books followed by an
interrupt during the second page. -/
def pages0 : List PageSpec :=
  [.page [.scraped, .scraped, .scraped, .scraped, .scraped, .scraped,
          .scraped, .scraped, .scraped, .scraped, .scraped, .scraped],
   .page [.scraped, .interrupted]]

@[simp] lemma incTotal_total (s : ScraperState) :
    (incTotal s).stats.total_requests = s.stats.total_requests + 1 := rfl

@[simp] lemma incTotal_delay (s : ScraperState) : (incTotal s).delay = s.delay := rfl

@[simp] lemma incTotal_retries (s : ScraperState) :
    (incTotal s).stats.retries = s.stats.retries := rfl

@[simp] lemma incTotal_blocked (s : ScraperState) :
    (incTotal s).stats.blocked_detections = s.stats.blocked_detections := rfl

@[simp] lemma incTotal_failed (s : ScraperState) :
    (incTotal s).stats.failed_requests = s.stats.failed_requests := rfl

@[simp] lemma incTotal_success (s : ScraperState) :
    (incTotal s).stats.successful_requests = s.stats.successful_requests := rfl

@[simp] lemma incRetries_total (s : ScraperState) :
    (incRetries s).stats.total_requests = s.stats.total_requests := rfl

@[simp] lemma incRetries_delay (s : ScraperState) : (incRetries s).delay = s.delay := rfl

@[simp] lemma incRetries_retries (s : ScraperState) :
    (incRetries s).stats.retries = s.stats.retries + 1 := rfl

@[simp] lemma incRetries_blocked (s : ScraperState) :
    (incRetries s).stats.blocked_detections = s.stats.blocked_detections := rfl

@[simp] lemma incRetries_failed (s : ScraperState) :
    (incRetries s).stats.failed_requests = s.stats.failed_requests := rfl

@[simp] lemma incRetries_success (s : ScraperState) :
    (incRetries s).stats.successful_requests = s.stats.successful_requests := rfl

@[simp] lemma incFailed_total (s : ScraperState) :
    (incFailed s).stats.total_requests = s.stats.total_requests := rfl

@[simp] lemma incFailed_delay (s : ScraperState) : (incFailed s).delay = s.delay := rfl

@[simp] lemma incFailed_failed (s : ScraperState) :
    (incFailed s).stats.failed_requests = s.stats.failed_requests + 1 := rfl

@[simp] lemma incFailed_retries (s : ScraperState) :
    (incFailed s).stats.retries = s.stats.retries := rfl

@[simp] lemma incFailed_blocked (s : ScraperState) :
    (incFailed s).stats.blocked_detections = s.stats.blocked_detections := rfl

@[simp] lemma incFailed_success (s : ScraperState) :
    (incFailed s).stats.successful_requests = s.stats.successful_requests := rfl

@[simp] lemma incSuccess_total (s : ScraperState) :
    (incSuccess s).stats.total_requests = s.stats.total_requests := rfl

@[simp] lemma incSuccess_delay (s : ScraperState) : (incSuccess s).delay = s.delay := rfl

@[simp] lemma incSuccess_success (s : ScraperState) :
    (incSuccess s).stats.successful_requests = s.stats.successful_requests + 1 := rfl

@[simp] lemma incSuccess_retries (s : ScraperState) :
    (incSuccess s).stats.retries = s.stats.retries := rfl

@[simp] lemma incSuccess_blocked (s : ScraperState) :
    (incSuccess s).stats.blocked_detections = s.stats.blocked_detections := rfl

@[simp] lemma incSuccess_failed (s : ScraperState) :
    (incSuccess s).stats.failed_requests = s.stats.failed_requests := rfl

@[simp] lemma incBlocked_total (s : ScraperState) :
    (incBlocked s).stats.total_requests = s.stats.total_requests := rfl

@[simp] lemma incBlocked_delay (s : ScraperState) : (incBlocked s).delay = s.delay := rfl

@[simp] lemma incBlocked_blocked (s : ScraperState) :
    (incBlocked s).stats.blocked_detections = s.stats.blocked_detections + 1 := rfl

@[simp] lemma incBlocked_retries (s : ScraperState) :
    (incBlocked s).stats.retries = s.stats.retries := rfl

@[simp] lemma incBlocked_failed (s : ScraperState) :
    (incBlocked s).stats.failed_requests = s.stats.failed_requests := rfl

@[simp] lemma incBlocked_success (s : ScraperState) :
    (incBlocked s).stats.successful_requests = s.stats.successful_requests := rfl

@[simp] lemma adaptive_delay_total (s : ScraperState) (b : Bool) :
    (adaptive_delay s b).stats.total_requests = s.stats.total_requests := by
  cases b <;> rfl

@[simp] lemma adaptive_delay_retries (s : ScraperState) (b : Bool) :
    (adaptive_delay s b).stats.retries = s.stats.retries := by
  cases b <;> rfl

@[simp] lemma adaptive_delay_blocked (s : ScraperState) (b : Bool) :
    (adaptive_delay s b).stats.blocked_detections = s.stats.blocked_detections := by
  cases b <;> rfl

@[simp] lemma adaptive_delay_failed (s : ScraperState) (b : Bool) :
    (adaptive_delay s b).stats.failed_requests = s.stats.failed_requests := by
  cases b <;> rfl

@[simp] lemma adaptive_delay_success_count (s : ScraperState) (b : Bool) :
    (adaptive_delay s b).stats.successful_requests = s.stats.successful_requests := by
  cases b <;> rfl

@[simp] lemma detect_blocking_state_total (s : ScraperState) (status : Nat) (body : String) :
    (detect_blocking s status body).2.stats.total_requests = s.stats.total_requests := by
  unfold detect_blocking; split_ifs <;> rfl

@[simp] lemma detect_blocking_state_delay (s : ScraperState) (status : Nat) (body : String) :
    (detect_blocking s status body).2.delay = s.delay := by
  unfold detect_blocking; split_ifs <;> rfl

@[simp] lemma detect_blocking_state_retries (s : ScraperState) (status : Nat) (body : String) :
    (detect_blocking s status body).2.stats.retries = s.stats.retries := by
  unfold detect_blocking; split_ifs <;> rfl

@[simp] lemma detect_blocking_state_failed (s : ScraperState) (status : Nat) (body : String) :
    (detect_blocking s status body).2.stats.failed_requests = s.stats.failed_requests := by
  unfold detect_blocking; split_ifs <;> rfl

@[simp] lemma detect_blocking_state_success (s : ScraperState) (status : Nat) (body : String) :
    (detect_blocking s status body).2.stats.successful_requests
      = s.stats.successful_requests := by
  unfold detect_blocking; split_ifs <;> rfl

/-- Attempt/counter bookkeeping of `make_request`: it makes at most
`k - retries + 1` attempts, and `total_requests` grows by exactly the
number of attempts made. -/
lemma make_request_attempts (k : Nat) (env : Nat → AttemptResult) :
    ∀ (n retries : Nat) (s : ScraperState), retries ≤ k → k - retries = n →
      (make_request k env s retries).attemptsMade ≤ n + 1 ∧
      (make_request k env s retries).state.stats.total_requests
        = s.stats.total_requests + (make_request k env s retries).attemptsMade := by
  intro n
  induction n with
  | zero =>
    intro retries s hle hn
    have hk : ¬ retries < k := by omega
    rw [make_request.eq_def]
    cases henv : env retries <;> simp only [henv] <;> split_ifs <;> simp
  | succ m ih =>
    intro retries s hle hn
    have hk : retries < k := by omega
    have hle' : retries + 1 ≤ k := by omega
    have hn' : k - (retries + 1) = m := by omega
    rw [make_request.eq_def]
    cases henv : env retries with
    | response status body =>
      simp only [henv]
      split_ifs <;> simp
      all_goals {
        have h := ih (retries + 1)
          (incRetries (detect_blocking (incTotal s) status body).2) hle' hn'
        simp at h
        omega }
    | timeout =>
      simp only [henv]
      split_ifs <;> simp
      have h := ih (retries + 1) (incRetries (incTotal s)) hle' hn'
      simp at h
      omega
    | netError =>
      simp only [henv]
      split_ifs <;> simp
      have h := ih (retries + 1) (incRetries (incTotal s)) hle' hn'
      simp at h
      omega

lemma detect_blocking_fst (s : ScraperState) (status : Nat) (body : String) :
    (detect_blocking s status body).1 = true ↔
      (status = 403 ∨ status = 429 ∨ "captcha".data <:+: body.data.map Char.toLower) := by
  unfold detect_blocking
  split_ifs with h1 h2 <;> simp_all [containsCaptcha] <;> tauto

lemma detect_blocking_of_not_blocked (s : ScraperState) (status : Nat) (body : String)
    (h : (detect_blocking s status body).1 = false) :
    (detect_blocking s status body).2 = s := by
  unfold detect_blocking at *
  split_ifs at h ⊢ <;> simp_all

lemma adaptive_delay_true_delay (s : ScraperState) :
    (adaptive_delay s true).delay = max min_delay (s.delay * 0.9) := rfl

lemma adaptive_delay_false_delay (s : ScraperState) :
    (adaptive_delay s false).delay = min max_delay (s.delay * 1.5) := rfl

lemma min_delay_le_afterSuccesses (n : Nat) :
    min_delay ≤ (afterSuccesses init_state n).delay := by
  induction n with
  | zero =>
    show min_delay ≤ (1.0 : ℚ)
    norm_num [min_delay]
  | succ n ih =>
    rw [afterSuccesses, adaptive_delay_true_delay]
    exact le_max_left _ _

lemma afterFailures_delay_bounds (n : Nat) :
    0 ≤ (afterFailures init_state n).delay ∧
      (afterFailures init_state n).delay ≤ max_delay := by
  induction n with
  | zero =>
    constructor
    · show (0 : ℚ) ≤ 1.0; norm_num
    · show (1.0 : ℚ) ≤ max_delay; norm_num [max_delay]
  | succ n ih =>
    rw [afterFailures, adaptive_delay_false_delay]
    refine ⟨le_min ?_ ?_, min_le_left _ _⟩
    · norm_num [max_delay]
    · nlinarith [ih.1]

/-- C2: the classification of `detect_blocking` is `true` exactly when
the status code is 403 or 429 or the body contains the captcha marker
case-insensitively; no other condition blocks, and the classification
is a deterministic function of `(status, body)` alone (independent of
the scraper state). -/
theorem C2_block_classification (s : ScraperState) (status : Nat) (body : String) :
    ((detect_blocking s status body).1 = true ↔
      (status = 403 ∨ status = 429 ∨ "captcha".data <:+: body.data.map Char.toLower))
    ∧ (∀ s' : ScraperState,
        (detect_blocking s status body).1 = (detect_blocking s' status body).1) := by
  constructor
  · unfold detect_blocking
    split_ifs with h1 h2 <;> simp_all [containsCaptcha] <;> tauto
  · intro s'
    unfold detect_blocking
    split_ifs <;> rfl

/-- C3: `adaptive_delay` updates the delay by exactly
`max(minDelay, delay * 0.9)` on success and `min(maxDelay, delay * 1.5)`
on failure; consequently, starting from the initial delay 1.0, any run
of successes is non-increasing and never drops below `minDelay = 0.5`,
and any run of failures is non-decreasing and never exceeds
`maxDelay = 10`. -/
theorem C3_adaptive_delay_monotone :
    (∀ s : ScraperState,
        (adaptive_delay s true).delay = max min_delay (s.delay * 0.9) ∧
        (adaptive_delay s false).delay = min max_delay (s.delay * 1.5))
    ∧ (∀ n : Nat,
        (afterSuccesses init_state (n + 1)).delay ≤ (afterSuccesses init_state n).delay ∧
        min_delay ≤ (afterSuccesses init_state n).delay)
    ∧ (∀ n : Nat,
        (afterFailures init_state n).delay ≤ (afterFailures init_state (n + 1)).delay ∧
        (afterFailures init_state n).delay ≤ max_delay) := by
  refine ⟨fun s => ⟨rfl, rfl⟩, fun n => ⟨?_, min_delay_le_afterSuccesses n⟩, fun n => ⟨?_, (afterFailures_delay_bounds n).2⟩⟩
  · rw [afterSuccesses, adaptive_delay_true_delay]
    have h := min_delay_le_afterSuccesses n
    have h05 : (0.5 : ℚ) ≤ (afterSuccesses init_state n).delay := by
      simpa [min_delay] using h
    refine max_le (by simpa [min_delay] using h05) (by nlinarith)
  · rw [afterFailures, adaptive_delay_false_delay]
    have h := afterFailures_delay_bounds n
    refine le_min (by simpa [max_delay] using h.2) (by nlinarith [h.1])

/-- C1: a single logical fetch (`make_request` with `retries = 0`)
performs at most `k + 1` attempts for retry cap `k`, however the
attempts fail; the attempt count is also exactly the growth of the
`total_requests` counter.  Termination of the recursion is inherent in
the definition (it is accepted by well-founded recursion on
`k - retries`). -/
theorem C1_retry_bound (k : Nat) (env : Nat → AttemptResult) (s : ScraperState) :
    (make_request k env s 0).attemptsMade ≤ k + 1 ∧
    (make_request k env s 0).state.stats.total_requests
      = s.stats.total_requests + (make_request k env s 0).attemptsMade := by
  have h := make_request_attempts k env k 0 s (Nat.zero_le k) (by omega)
  exact ⟨by omega, h.2⟩

/-- Along an all-blocked fetch the delay is never updated:
`adaptive_delay` is not called anywhere on the blocked path of
`make_request`, including the exhaustion branch. -/
lemma make_request_env429c_delay :
    ∀ (n retries : Nat) (s : ScraperState), 5 - retries = n →
      (make_request 5 env429c s retries).state.delay = s.delay ∧
      (make_request 5 env429c s retries).result = none := by
  intro n
  induction n with
  | zero =>
    intro retries s hn
    rw [make_request.eq_def]
    simp only [env429c]
    rw [dif_neg (by omega : ¬ retries < 5)] <;> simp [detect_blocking]
  | succ m ih =>
    intro retries s hn
    rw [make_request.eq_def]
    simp only [env429c]
    rw [dif_pos (by omega : retries < 5)]
    have h := ih (retries + 1)
      (incRetries (detect_blocking (incTotal s) 429 "x").2) (by omega)
    simp [detect_blocking] at h ⊢
    exact h

/-- C4 as stated is false on the code: on a fully-blocked fetch the
exhaustion branch returns `None` after incrementing `failed_requests`
but never calls `adaptive_delay(False)`, so the delay does not
increase.  Concretely, with every attempt answered 429 the final delay
equals the initial delay. -/
theorem C4_counterexample :
    (make_request 5 env429c init_state 0).state.delay = init_state.delay ∧
    ¬ init_state.delay < (make_request 5 env429c init_state 0).state.delay := by
  have h := make_request_env429c_delay 5 0 init_state rfl
  exact ⟨h.1, by rw [h.1]; exact lt_irrefl _⟩

/-- C4 (amended): when an attempt is classified as blocked and the
attempt counter has reached the retry cap, `make_request` increments
`failed_requests` and returns `None`, but does not call
`adaptive_delay(False)`: the delay is left unchanged (no update at
all) on a fully-blocked fetch. -/
theorem C4_blocked_exhaustion (k : Nat) (env : Nat → AttemptResult) (s : ScraperState)
    (retries status : Nat) (body : String)
    (henv : env retries = .response status body)
    (hb : status = 403 ∨ status = 429 ∨ "captcha".data <:+: body.data.map Char.toLower)
    (hk : ¬ retries < k) :
    (make_request k env s retries).result = none ∧
    (make_request k env s retries).state.stats.failed_requests
      = s.stats.failed_requests + 1 ∧
    (make_request k env s retries).state.delay = s.delay := by
  have hb' := (detect_blocking_fst (incTotal s) status body).mpr hb
  rw [make_request.eq_def]
  simp only [henv, hb']
  rw [dif_neg hk] <;> simp

/-- Witness for `C4_blocked_exhaustion` at a concrete input. -/
theorem C4_blocked_exhaustion_witness :
    (env429c 5 = .response 429 "x"
      ∧ ((429 : Nat) = 403 ∨ (429 : Nat) = 429
          ∨ "captcha".data <:+: "x".data.map Char.toLower)
      ∧ ¬ (5 : Nat) < 5)
    ∧ ((make_request 5 env429c init_state 5).result = none ∧
       (make_request 5 env429c init_state 5).state.stats.failed_requests
         = init_state.stats.failed_requests + 1 ∧
       (make_request 5 env429c init_state 5).state.delay = init_state.delay) :=
  ⟨⟨rfl, by tauto, by omega⟩,
    C4_blocked_exhaustion 5 env429c init_state 5 429 "x" rfl (by tauto) (by omega)⟩

/-- C5 as stated is false on the code: the `except Timeout` handler
retries without any backoff sleep (`time.sleep(self.delay * (retries + 1))`
appears only in the generic `except RequestException` handler).  With a
timeout on the first attempt and a success on the second, a retry was
performed (`retries = 1`) yet the trace contains no backoff sleep at
all. -/
theorem C5_counterexample :
    countBackoffSleeps (make_request 5 envT init_state 0).trace = 0 ∧
    (make_request 5 envT init_state 0).state.stats.retries = 1 := by
  have hc : containsCaptcha "ok" = false := by decide
  rw [make_request.eq_def]
  norm_num [envT]
  rw [make_request.eq_def]
  norm_num [envT, detect_blocking, hc, countBackoffSleeps, init_state, init_stats]

/-- C5 (amended): when a non-timeout network error occurs on an
attempt with `retries < k`, the fetch sleeps `delay * (retries + 1)`
(linear backoff) before retrying; a timeout with `retries < k` retries
immediately, with no backoff sleep (only the regular pre-attempt
delay sleep of the next activation). -/
theorem C5_linear_backoff (k : Nat) (env : Nat → AttemptResult) (s : ScraperState)
    (retries : Nat) (hk : retries < k) :
    (env retries = .netError →
      make_request k env s retries =
        { result := (make_request k env (incRetries (incTotal s)) (retries + 1)).result,
          state := (make_request k env (incRetries (incTotal s)) (retries + 1)).state,
          trace := .sleepDelay s.delay :: .sleepLinear (s.delay * ((retries : ℚ) + 1)) ::
            (make_request k env (incRetries (incTotal s)) (retries + 1)).trace,
          attemptsMade :=
            (make_request k env (incRetries (incTotal s)) (retries + 1)).attemptsMade + 1 })
    ∧ (env retries = .timeout →
      make_request k env s retries =
        { result := (make_request k env (incRetries (incTotal s)) (retries + 1)).result,
          state := (make_request k env (incRetries (incTotal s)) (retries + 1)).state,
          trace := .sleepDelay s.delay ::
            (make_request k env (incRetries (incTotal s)) (retries + 1)).trace,
          attemptsMade :=
            (make_request k env (incRetries (incTotal s)) (retries + 1)).attemptsMade + 1 }) := by
  constructor <;> intro henv <;> rw [make_request.eq_def] <;> simp only [henv] <;>
    rw [dif_pos hk] <;> simp

/-- Witness for `C5_linear_backoff` at a concrete input. -/
theorem C5_linear_backoff_witness :
    ((0 : Nat) < 5)
    ∧ ((envNc 0 = .netError →
        make_request 5 envNc init_state 0 =
          { result := (make_request 5 envNc (incRetries (incTotal init_state)) 1).result,
            state := (make_request 5 envNc (incRetries (incTotal init_state)) 1).state,
            trace := .sleepDelay init_state.delay ::
              .sleepLinear (init_state.delay * ((0 : ℚ) + 1)) ::
              (make_request 5 envNc (incRetries (incTotal init_state)) 1).trace,
            attemptsMade :=
              (make_request 5 envNc (incRetries (incTotal init_state)) 1).attemptsMade + 1 })
      ∧ (envNc 0 = .timeout →
        make_request 5 envNc init_state 0 =
          { result := (make_request 5 envNc (incRetries (incTotal init_state)) 1).result,
            state := (make_request 5 envNc (incRetries (incTotal init_state)) 1).state,
            trace := .sleepDelay init_state.delay ::
              (make_request 5 envNc (incRetries (incTotal init_state)) 1).trace,
            attemptsMade :=
              (make_request 5 envNc (incRetries (incTotal init_state)) 1).attemptsMade + 1 })) :=
  ⟨by omega, C5_linear_backoff 5 envNc init_state 0 (by omega)⟩

/-- Behaviour of the fetch on an all-404 oracle: every attempt raises
`HTTPError` in `raise_for_status`, is retried through the
`RequestException` handler, and after exhaustion the fetch returns
`None`; `successful_requests` is never incremented. -/
lemma make_request_env404c :
    ∀ (n retries : Nat) (s : ScraperState), 5 - retries = n →
      (make_request 5 env404c s retries).result = none ∧
      (make_request 5 env404c s retries).state.stats.successful_requests
        = s.stats.successful_requests ∧
      (make_request 5 env404c s retries).state.stats.retries
        = s.stats.retries + (5 - retries) := by
  have hcap : containsCaptcha "x" = false := by decide
  intro n
  induction n with
  | zero =>
    intro retries s hn
    rw [make_request.eq_def]
    simp only [env404c]
    simp [detect_blocking, hcap]
    rw [if_neg (by omega : ¬ retries < 5)]
    simp
    omega
  | succ m ih =>
    intro retries s hn
    rw [make_request.eq_def]
    simp only [env404c]
    simp [detect_blocking, hcap]
    rw [if_pos (by omega : retries < 5)]
    have h := ih (retries + 1) (incRetries (incTotal s)) (by omega)
    simp [detect_blocking, hcap] at h
    simp [h.1, h.2.1, h.2.2]
    omega

/-- C6 as stated is false on the code: a non-2xx status that is not
classified as blocked (e.g. 404) makes `response.raise_for_status()`
raise before `successful_requests += 1` and `adaptive_delay(True)` are
reached, so the response is retried as a network error and, after
exhaustion, the fetch returns `None` — it is not surfaced as a
`Success`. -/
theorem C6_counterexample :
    (make_request 5 env404c init_state 0).result = none ∧
    (make_request 5 env404c init_state 0).state.stats.successful_requests = 0 ∧
    (make_request 5 env404c init_state 0).state.stats.retries = 5 := by
  have h := make_request_env404c 5 0 init_state rfl
  refine ⟨h.1, h.2.1, h.2.2⟩

/-- C6 (amended): on a response that is not classified as blocked and
whose status does not trigger `raise_for_status` (outside 400..599),
the fetch increments `successful_requests`, calls
`adaptive_delay(True)` and returns `Success(content)` in a single
attempt.  A non-2xx status outside `{403, 429}` and without a captcha
marker instead raises `HTTPError` and is handled by the network-error
path (retried, and reported as a terminal failure after exhaustion),
as shown by `C6_counterexample`. -/
theorem C6_success (k : Nat) (env : Nat → AttemptResult) (s : ScraperState)
    (retries status : Nat) (body : String)
    (henv : env retries = .response status body)
    (hnb : ¬ (status = 403 ∨ status = 429 ∨ "captcha".data <:+: body.data.map Char.toLower))
    (hok : ¬ (400 ≤ status ∧ status < 600)) :
    (make_request k env s retries).result = some body ∧
    (make_request k env s retries).state.stats.successful_requests
      = s.stats.successful_requests + 1 ∧
    (make_request k env s retries).state.delay = max min_delay (s.delay * 0.9) ∧
    (make_request k env s retries).attemptsMade = 1 := by
  have hb' : (detect_blocking (incTotal s) status body).1 = false := by
    rcases hfb : (detect_blocking (incTotal s) status body).1 with _ | _
    · rfl
    · exact absurd ((detect_blocking_fst (incTotal s) status body).mp hfb) hnb
  have h2 := detect_blocking_of_not_blocked (incTotal s) status body hb'
  rw [make_request.eq_def]
  simp only [henv, hb', h2]
  simp [hok, adaptive_delay_true_delay]

/-- Witness for `C6_success` at a concrete input. -/
theorem C6_success_witness :
    (env200c 0 = .response 200 "ok"
      ∧ ¬ ((200 : Nat) = 403 ∨ (200 : Nat) = 429
            ∨ "captcha".data <:+: "ok".data.map Char.toLower)
      ∧ ¬ ((400 : Nat) ≤ 200 ∧ (200 : Nat) < 600))
    ∧ ((make_request 5 env200c init_state 0).result = some "ok" ∧
       (make_request 5 env200c init_state 0).state.stats.successful_requests
         = init_state.stats.successful_requests + 1 ∧
       (make_request 5 env200c init_state 0).state.delay
         = max min_delay (init_state.delay * 0.9) ∧
       (make_request 5 env200c init_state 0).attemptsMade = 1) :=
  ⟨⟨rfl, by decide, by omega⟩,
    C6_success 5 env200c init_state 0 200 "ok" rfl (by decide) (by omega)⟩

/-- Full evaluation of the end-to-end scenario `429 then 200`:
one blocked detection, one retry, the blocked attempt leaves the delay
untouched (the pre-attempt sleep of the second attempt is again 1),
and the successful attempt lowers the delay to 0.9. -/
lemma make_request_env9_eval :
    (make_request 5 env9 init_state 0).state.stats.blocked_detections = 1 ∧
    (make_request 5 env9 init_state 0).state.stats.retries = 1 ∧
    (make_request 5 env9 init_state 0).result = some "page" ∧
    (make_request 5 env9 init_state 0).trace
      = [.sleepDelay 1, .sleepBackoff 1, .sleepDelay 1] ∧
    (make_request 5 env9 init_state 0).state.delay = 0.9 := by
  have hc1 : containsCaptcha "" = false := by decide
  have hc2 : containsCaptcha "page" = false := by decide
  rw [make_request.eq_def]
  norm_num [env9, detect_blocking, hc1, init_state, init_stats]
  rw [make_request.eq_def]
  norm_num [env9, detect_blocking, hc2, incTotal, incRetries, incBlocked,
    incSuccess, adaptive_delay, init_state, init_stats, min_delay, max_delay]

/-- C9 as stated is false on the code: in the `429 then 200` scenario
the delay is not strictly higher after the blocked attempt than its
initial value — the blocked path never calls `adaptive_delay`, so the
pre-attempt sleep of the second attempt uses the unchanged delay 1.0
(the pre-attempt sleeps are `[1, 1]`, and there is no pre-attempt
sleep strictly above the initial delay after the first). -/
theorem C9_counterexample :
    preSleeps (make_request 5 env9 init_state 0).trace = [1, 1] ∧
    ¬ (∃ d, (preSleeps (make_request 5 env9 init_state 0).trace)[1]? = some d
          ∧ init_state.delay < d) := by
  have h := make_request_env9_eval
  rw [h.2.2.2.1]
  constructor
  · norm_num [preSleeps]
  · rintro ⟨d, hd, hlt⟩
    simp [preSleeps] at hd
    rw [← hd] at hlt
    norm_num [init_state] at hlt

/-- C9 (amended): with `maxRetries = 5`, a first attempt answered 429
and a second answered 200, the fetch resolves with
`blocked_detections` increased by exactly 1, `retries` increased by
exactly 1, and returns `Success`; the delay is unchanged (1.0) after
the blocked attempt — not strictly higher, since the blocked path
performs no delay update — and then decreases to 0.9 after the
successful attempt, ending strictly below its initial value. -/
theorem C9_scenario :
    (make_request 5 env9 init_state 0).state.stats.blocked_detections = 1 ∧
    (make_request 5 env9 init_state 0).state.stats.retries = 1 ∧
    (make_request 5 env9 init_state 0).result = some "page" ∧
    preSleeps (make_request 5 env9 init_state 0).trace = [1, 1] ∧
    (make_request 5 env9 init_state 0).state.delay = 0.9 ∧
    (make_request 5 env9 init_state 0).state.delay < init_state.delay := by
  have h := make_request_env9_eval
  refine ⟨h.1, h.2.1, h.2.2.1, ?_, h.2.2.2.2, ?_⟩
  · rw [h.2.2.2.1]; norm_num [preSleeps]
  · rw [h.2.2.2.2]; norm_num [init_state]

@[simp] lemma incTotal_books (s : ScraperState) :
    (incTotal s).scraped_books = s.scraped_books := rfl

@[simp] lemma incRetries_books (s : ScraperState) :
    (incRetries s).scraped_books = s.scraped_books := rfl

@[simp] lemma incFailed_books (s : ScraperState) :
    (incFailed s).scraped_books = s.scraped_books := rfl

@[simp] lemma incSuccess_books (s : ScraperState) :
    (incSuccess s).scraped_books = s.scraped_books := rfl

@[simp] lemma incBlocked_books (s : ScraperState) :
    (incBlocked s).scraped_books = s.scraped_books := rfl

@[simp] lemma adaptive_delay_books (s : ScraperState) (b : Bool) :
    (adaptive_delay s b).scraped_books = s.scraped_books := by
  cases b <;> rfl

@[simp] lemma detect_blocking_state_books (s : ScraperState) (status : Nat) (body : String) :
    (detect_blocking s status body).2.scraped_books = s.scraped_books := by
  unfold detect_blocking; split_ifs <;> rfl

/-- `make_request` never touches the accumulated book list. -/
lemma make_request_books (k : Nat) (env : Nat → AttemptResult) :
    ∀ (n retries : Nat) (s : ScraperState), k - retries = n →
      (make_request k env s retries).state.scraped_books = s.scraped_books := by
  intro n
  induction n with
  | zero =>
    intro retries s hn
    have hk : ¬ retries < k := by omega
    rw [make_request.eq_def]
    cases henv : env retries <;> simp only [henv] <;> split_ifs <;> simp_all
  | succ m ih =>
    intro retries s hn
    have hk : retries < k := by omega
    rw [make_request.eq_def]
    cases henv : env retries with
    | response status body =>
      simp only [henv]
      split_ifs <;> simp
      all_goals {
        have h := ih (retries + 1)
          (incRetries (detect_blocking (incTotal s) status body).2) (by omega)
        simp at h
        exact h }
    | timeout =>
      simp only [henv]
      split_ifs <;> simp
      have h := ih (retries + 1) (incRetries (incTotal s)) (by omega)
      simpa using h
    | netError =>
      simp only [henv]
      split_ifs <;> simp
      have h := ih (retries + 1) (incRetries (incTotal s)) (by omega)
      simpa using h

/-- C7: submitting a key already present leaves the whole state
unchanged (no request is even made), and the accumulated book list
never acquires two entries with the same URL. -/
theorem C7_dedup (env : Nat → AttemptResult) (parse : String → Option BookFields)
    (now : String) (s : ScraperState) (book_url : String) :
    (s.scraped_books.any (fun b => b.url == book_url) = true →
      scrape_book env parse now s book_url = (none, s))
    ∧ ((s.scraped_books.map Book.url).Nodup →
      (((scrape_book env parse now s book_url).2).scraped_books.map Book.url).Nodup) := by
  constructor
  · intro h
    unfold scrape_book
    rw [if_pos h]
  · intro hnd
    unfold scrape_book
    split_ifs with h
    · simpa
    · have hb := make_request_books max_retries env max_retries 0 s (by omega)
      cases hr : (make_request max_retries env s 0).result with
      | none => simpa [hr, hb] using hnd
      | some content =>
        cases hp : parse content with
        | none => simpa [hr, hp, hb] using hnd
        | some f =>
          have hmem : book_url ∉ s.scraped_books.map Book.url := by
            simp only [List.any_eq_true, beq_iff_eq] at h
            simp only [List.mem_map]
            rintro ⟨b, hbmem, hbe⟩
            exact h ⟨b, hbmem, hbe⟩
          simp [hr, hp, hb, List.nodup_append, hnd, hmem]

/-- Witness for `C7_dedup` at a concrete input: submitting the key
"u" against a state that already contains it changes nothing. -/
theorem C7_dedup_witness :
    (s_one.scraped_books.any (fun b => b.url == "u") = true)
    ∧ scrape_book env200c parse0 "d" s_one "u" = (none, s_one) :=
  ⟨by decide, (C7_dedup env200c parse0 "d" s_one "u").1 (by decide)⟩

/-- C10: `save_checkpoint` never raises and never mutates the
in-memory crawl state, whatever the state and however the underlying
file write fails. -/
theorem C10_save_checkpoint_total (write : CheckpointData → Except String Unit)
    (s : ScraperState) :
    save_checkpoint write s = .ok s := by
  unfold save_checkpoint
  cases write (checkpoint_payload s) <;> rfl

lemma inv_gap (s : OrchState) (h : Inv s) : gap s ≤ 9 := by
  unfold Inv at h
  unfold gap
  omega

lemma bookStep_inv (s : OrchState) (b : BookOutcome) (h : Inv s) :
    Inv (bookStep s b).state ∧ gap (bookStep s b).state ≤ 9 := by
  unfold Inv gap at *
  unfold bookStep doSave
  cases b <;> simp <;>
    first
      | omega
      | (split_ifs with hc <;> simp <;> omega)

lemma processBooks_inv (bs : List BookOutcome) : ∀ s : OrchState, Inv s →
    Inv (processBooks s bs).state ∧ (processBooks s bs).maxGap ≤ 9 := by
  induction bs with
  | nil =>
    intro s h
    exact ⟨h, inv_gap s h⟩
  | cons b rest ih =>
    intro s h
    have hb := bookStep_inv s b h
    unfold processBooks
    cases hr : (bookStep s b).raised with
    | some e =>
      simp only [hr]
      exact ⟨hb.1, by simp [max_le_iff]; exact ⟨inv_gap s h, hb.2⟩⟩
    | none =>
      simp only [hr]
      have h2 := ih (bookStep s b).state hb.1
      exact ⟨h2.1, by simp [max_le_iff]; exact ⟨inv_gap s h, h2.2⟩⟩

lemma crawlPages_inv (pages : List PageSpec) : ∀ s : OrchState, Inv s →
    Inv (crawlPages s pages).state ∧ (crawlPages s pages).maxGap ≤ 9 := by
  induction pages with
  | nil =>
    intro s h
    exact ⟨h, inv_gap s h⟩
  | cons pg rest ih =>
    intro s h
    cases pg with
    | fetchFail => exact ⟨h, inv_gap s h⟩
    | interruptedFetch => exact ⟨h, inv_gap s h⟩
    | erroredFetch => exact ⟨h, inv_gap s h⟩
    | page books =>
      cases books with
      | nil => exact ⟨h, inv_gap s h⟩
      | cons b bs =>
        have h1 := processBooks_inv (b :: bs) s h
        unfold crawlPages
        cases hr : (processBooks s (b :: bs)).raised with
        | some e =>
          cases e <;> simp only [hr] <;> exact ⟨h1.1, h1.2⟩
        | none =>
          simp only [hr]
          have h2 := ih (processBooks s (b :: bs)).state h1.1
          exact ⟨h2.1, by simp [max_le_iff]; exact ⟨h1.2, h2.2⟩⟩

lemma multiplesSaved_append :
    ∀ a b : List CrawlEvent, multiplesSaved a = true → multiplesSaved b = true →
      (∀ c, a.getLast? = some (.scrapedBook c) → ¬ c % 10 = 0) →
      multiplesSaved (a ++ b) = true := by
  intro a
  induction a with
  | nil =>
    intro b _ hb _
    simpa using hb
  | cons e rest ih =>
    intro b ha hb hlast
    have hrest : ∀ c', rest.getLast? = some (.scrapedBook c') → ¬ c' % 10 = 0 := by
      intro c' hc'
      cases rest with
      | nil => simp at hc'
      | cons e' rest' =>
        apply hlast
        rw [List.getLast?_cons_cons]
        exact hc'
    cases e with
    | save c =>
      simp only [List.cons_append, multiplesSaved] at ha ⊢
      exact ih b ha hb hrest
    | scrapedBook c =>
      simp only [List.cons_append, multiplesSaved, Bool.and_eq_true] at ha ⊢
      obtain ⟨h1, h2⟩ := ha
      refine ⟨?_, ih b h2 hb hrest⟩
      by_cases hc : c % 10 = 0
      · rw [if_pos hc] at h1 ⊢
        cases rest with
        | nil => exact absurd hc (hlast c (by simp))
        | cons e' rest' =>
          cases e' with
          | save c' => simpa using h1
          | scrapedBook c'' => simp at h1
      · rw [if_neg hc]

lemma bookStep_events_ok (s : OrchState) (b : BookOutcome) :
    multiplesSaved (bookStep s b).events = true ∧
    ∀ c, (bookStep s b).events.getLast? = some (.scrapedBook c) → ¬ c % 10 = 0 := by
  unfold bookStep doSave
  cases b <;> simp [multiplesSaved]
  · split_ifs with hc <;> simp_all [multiplesSaved]
  · split_ifs with hc <;> simp_all [multiplesSaved]

lemma processBooks_events_ok (bs : List BookOutcome) : ∀ s : OrchState,
    multiplesSaved (processBooks s bs).events = true ∧
    ∀ c, (processBooks s bs).events.getLast? = some (.scrapedBook c) → ¬ c % 10 = 0 := by
  induction bs with
  | nil =>
    intro s
    constructor
    · rfl
    · intro c hc; simp [processBooks] at hc
  | cons b rest ih =>
    intro s
    unfold processBooks
    cases hr : (bookStep s b).raised with
    | some e =>
      simp only [hr]
      exact bookStep_events_ok s b
    | none =>
      simp only [hr]
      have h1 := bookStep_events_ok s b
      have h2 := ih (bookStep s b).state
      constructor
      · exact multiplesSaved_append _ _ h1.1 h2.1 h1.2
      · intro c hc
        rcases he2 : (processBooks (bookStep s b).state rest).events with _ | ⟨e', rest'⟩
        · rw [he2, List.append_nil] at hc
          exact h1.2 c hc
        · rw [he2, List.getLast?_append_of_ne_nil _ (by simp)] at hc
          exact h2.2 c (by rw [he2]; exact hc)

lemma crawlPages_events_ok (pages : List PageSpec) : ∀ s : OrchState,
    multiplesSaved (crawlPages s pages).events = true ∧
    ∀ c, (crawlPages s pages).events.getLast? = some (.scrapedBook c) → ¬ c % 10 = 0 := by
  induction pages with
  | nil =>
    intro s
    exact ⟨rfl, by intro c hc; simp [crawlPages] at hc⟩
  | cons pg rest ih =>
    intro s
    cases pg with
    | fetchFail => exact ⟨rfl, by intro c hc; simp [crawlPages] at hc⟩
    | interruptedFetch => exact ⟨rfl, by intro c hc; simp [crawlPages] at hc⟩
    | erroredFetch => exact ⟨rfl, by intro c hc; simp [crawlPages] at hc⟩
    | page books =>
      cases books with
      | nil => exact ⟨rfl, by intro c hc; simp [crawlPages] at hc⟩
      | cons b bs =>
        have h1 := processBooks_events_ok (b :: bs) s
        unfold crawlPages
        cases hr : (processBooks s (b :: bs)).raised with
        | some e =>
          cases e <;> simp only [hr] <;> exact h1
        | none =>
          simp only [hr]
          have h2 := ih (processBooks s (b :: bs)).state
          constructor
          · exact multiplesSaved_append _ _ h1.1 h2.1 h1.2
          · intro c hc
            rcases he2 : (crawlPages (processBooks s (b :: bs)).state rest).events
              with _ | ⟨e', rest'⟩
            · rw [he2, List.append_nil] at hc
              exact h1.2 c hc
            · rw [he2, List.getLast?_append_of_ne_nil _ (by simp)] at hc
              exact h2.2 c (by rw [he2]; exact hc)

/-- C8: starting from any state whose progress is durable up to the
invariant (in particular a fresh or freshly-resumed state), every run
of the catalogue loop (a) saves immediately whenever `books_scraped`
reaches a multiple of 10, (b) ends its event trace with a checkpoint
save on every exit path — normal completion, `KeyboardInterrupt`, and
fatal error alike, so the final state is fully durable — and (c) at
every loop boundary at most 9 items of progress were unsaved, so an
uncontrolled crash loses at most 9 items. -/
theorem C8_checkpoint_policy (pages : List PageSpec) (s : OrchState) (h : Inv s) :
    multiplesSaved (scrape_catalogue pages s).trace = true ∧
    (scrape_catalogue pages s).trace.getLast?
      = some (.save (scrape_catalogue pages s).state.books_scraped) ∧
    (scrape_catalogue pages s).state.lastSaved
      = (scrape_catalogue pages s).state.books_scraped ∧
    (scrape_catalogue pages s).maxGap ≤ 9 := by
  have hinv := crawlPages_inv pages s h
  have hev := crawlPages_events_ok pages s
  unfold scrape_catalogue
  cases he : (crawlPages s pages).exitKind <;> simp only [he, doSave] <;>
    refine ⟨?_, ?_, ?_, ?_⟩ <;>
    first
      | exact multiplesSaved_append _ _ hev.1 rfl hev.2
      | (rw [List.getLast?_append_of_ne_nil _ (by simp)]; rfl)
      | trivial
      | (simp [gap, max_le_iff]; exact hinv.2)

/-- Witness for `C8_checkpoint_policy` at a concrete input. -/
theorem C8_checkpoint_policy_witness :
    Inv ⟨0, 0⟩
    ∧ (multiplesSaved (scrape_catalogue pages0 ⟨0, 0⟩).trace = true ∧
       (scrape_catalogue pages0 ⟨0, 0⟩).trace.getLast?
         = some (.save (scrape_catalogue pages0 ⟨0, 0⟩).state.books_scraped) ∧
       (scrape_catalogue pages0 ⟨0, 0⟩).state.lastSaved
         = (scrape_catalogue pages0 ⟨0, 0⟩).state.books_scraped ∧
       (scrape_catalogue pages0 ⟨0, 0⟩).maxGap ≤ 9) :=
  ⟨by constructor <;> decide, C8_checkpoint_policy pages0 ⟨0, 0⟩ (by constructor <;> decide)⟩

end Exo6

